import Mathlib

set_option maxHeartbeats 1000000

attribute [local semireducible] Rat.add Rat.sub Rat.mul Rat.inv Rat.ofScientific

/-!
Shallow embedding of the EPC milestone risk engine (src/app.py):
the planned-spend schedule generator, the actuals accessor, the
three-layer risk scoring engine and the advisory rule engine.

Modelling conventions: calendar dates are integer day numbers
(Python `date` plus `timedelta(days=i)` becomes integer addition,
and `(a - b).days` becomes integer subtraction); money and ratios
are exact rationals; Python `round(x, n)` (round half to even) is
modelled by `roundTo n x`; "today" is an explicit parameter.
-/

/-- Python `round(q)` to an integer: round half to even. -/
def rndHalfEven (q : ℚ) : ℤ :=
  if q - ⌊q⌋ < 1/2 then ⌊q⌋
  else if 1/2 < q - ⌊q⌋ then ⌊q⌋ + 1
  else if ⌊q⌋ % 2 = 0 then ⌊q⌋ else ⌊q⌋ + 1

/-- Python `round(q, n)` for rationals. -/
def roundTo (n : ℕ) (q : ℚ) : ℚ := (rndHalfEven (q * 10 ^ n) : ℚ) / 10 ^ n

/-- A labour category: `{name, count, daily_rate, days}` (app.py data model). -/
structure Labourer where
  name : String
  count : ℕ
  daily_rate : ℚ
  days : ℕ
deriving DecidableEq

/-- A material line item: `{name, quantity, unit_cost}`. -/
structure Material where
  name : String
  quantity : ℚ
  unit_cost : ℚ
deriving DecidableEq

/-- A machinery category: `{name, count, daily_rate, days}`. -/
structure Machine where
  name : String
  count : ℕ
  daily_rate : ℚ
  days : ℕ
deriving DecidableEq

/-- A milestone record as consumed by the engine (id/title kept for shape). -/
structure Milestone where
  id : String
  title : String
  start_date : ℤ
  deadline_days : ℕ
  total_cost : ℚ
  labourers : List Labourer
  materials : List Material
  machines : List Machine
deriving DecidableEq

/-- Schema validity of a milestone per the data model: non-negative budget,
duration at least one day, non-negative rates/quantities/costs. -/
def Milestone.Valid (ms : Milestone) : Prop :=
  0 ≤ ms.total_cost ∧ 1 ≤ ms.deadline_days ∧
  (∀ l ∈ ms.labourers, 0 ≤ l.daily_rate) ∧
  (∀ m ∈ ms.materials, 0 ≤ m.quantity ∧ 0 ≤ m.unit_cost) ∧
  (∀ m ∈ ms.machines, 0 ≤ m.daily_rate)

instance (ms : Milestone) : Decidable ms.Valid := by
  unfold Milestone.Valid; infer_instance

/-- `sum(l["count"] * l["daily_rate"] * l["days"] for l in labourers)`
(used by the labour-optimise advisory rule). -/
def labour_cost (ls : List Labourer) : ℚ :=
  (ls.map fun l => (l.count : ℚ) * l.daily_rate * (l.days : ℚ)).sum

/-- `sum(m["quantity"] * m["unit_cost"] for m in materials)` (app.py line 75). -/
def material_cost (mats : List Material) : ℚ :=
  (mats.map fun m => m.quantity * m.unit_cost).sum

/-- `max(deadline_days, 1)` — the floor-1 denominator used throughout. -/
def dlFloor (ms : Milestone) : ℕ := max ms.deadline_days 1

/-- `daily_mat = total_mat_cost / max(deadline_days, 1)` (app.py line 76). -/
def dailyMaterial (ms : Milestone) : ℚ :=
  material_cost ms.materials / (dlFloor ms : ℚ)

/-- Wage spend of day `i`: labourer categories with `i < l["days"]` (app.py 81-85). -/
def wagesOn (ls : List Labourer) (i : ℕ) : ℚ :=
  ((ls.filter fun l => decide (i < l.days)).map fun l => (l.count : ℚ) * l.daily_rate).sum

/-- Machinery spend of day `i`: machines with `i < m["days"]` (app.py 87-91). -/
def machineryOn (xs : List Machine) (i : ℕ) : ℚ :=
  ((xs.filter fun m => decide (i < m.days)).map fun m => (m.count : ℚ) * m.daily_rate).sum

/-- One row of the planned schedule (app.py 92-99). -/
structure ScheduleRow where
  date : ℤ
  wages : ℚ
  materials : ℚ
  machinery : ℚ
  total : ℚ
  day_index : ℕ
deriving DecidableEq

/-- The row built for day index `i` of the loop in `compute_planned_schedule`. -/
def scheduleRow (ms : Milestone) (i : ℕ) : ScheduleRow :=
  { date := ms.start_date + (i : ℤ)
    wages := roundTo 2 (wagesOn ms.labourers i)
    materials := roundTo 2 (dailyMaterial ms)
    machinery := roundTo 2 (machineryOn ms.machines i)
    total := roundTo 2 (wagesOn ms.labourers i + dailyMaterial ms + machineryOn ms.machines i)
    day_index := i }

/-- `compute_planned_schedule(ms)`: one row per day index `0..deadline_days-1`. -/
def compute_planned_schedule (ms : Milestone) : List ScheduleRow :=
  (List.range ms.deadline_days).map (scheduleRow ms)

/-- `get_actuals_up_to_today(ms)`: schedule rows with `date <= today`. -/
def get_actuals_up_to_today (ms : Milestone) (today : ℤ) : List ScheduleRow :=
  (compute_planned_schedule ms).filter fun r => decide (r.date ≤ today)

/-- `days_elapsed(ms) = max(0, min((today - start).days + 1, deadline_days))`. -/
def days_elapsed (ms : Milestone) (today : ℤ) : ℤ :=
  max 0 (min (today - ms.start_date + 1) (ms.deadline_days : ℤ))

/-- `days_remaining(ms) = max(0, (start + deadline_days - today).days)` —
note the absence of an upper clamp (app.py 123-127). -/
def days_remaining (ms : Milestone) (today : ℤ) : ℤ :=
  max 0 (ms.start_date + (ms.deadline_days : ℤ) - today)

/-- The guard `not actuals.empty and elapsed > 0` of app.py line 144. -/
def msStarted (ms : Milestone) (today : ℤ) : Bool :=
  !(get_actuals_up_to_today ms today).isEmpty && decide (0 < days_elapsed ms today)

/-- `total_spent`: sum of the actuals `total` column, or `0.0` when not started. -/
def totalSpent (ms : Milestone) (today : ℤ) : ℚ :=
  if msStarted ms today then ((get_actuals_up_to_today ms today).map fun r => r.total).sum
  else 0

/-- `wages_spent` (app.py 146 / 153). -/
def wagesSpent (ms : Milestone) (today : ℤ) : ℚ :=
  if msStarted ms today then ((get_actuals_up_to_today ms today).map fun r => r.wages).sum
  else 0

/-- `mat_spent` (app.py 147 / 153). -/
def matSpent (ms : Milestone) (today : ℤ) : ℚ :=
  if msStarted ms today then ((get_actuals_up_to_today ms today).map fun r => r.materials).sum
  else 0

/-- `mach_spent` (app.py 148 / 153). -/
def machSpent (ms : Milestone) (today : ℤ) : ℚ :=
  if msStarted ms today then ((get_actuals_up_to_today ms today).map fun r => r.machinery).sum
  else 0

/-- `avg_daily`: mean of the actuals totals, else `total_cost / max(deadline_days, 1)`. -/
def avgDaily (ms : Milestone) (today : ℤ) : ℚ :=
  if msStarted ms today then
    ((get_actuals_up_to_today ms today).map fun r => r.total).sum
      / ((get_actuals_up_to_today ms today).length : ℚ)
  else ms.total_cost / (dlFloor ms : ℚ)

/-- `projected_total = avg_daily * deadline_days`, else `total_budget` (app.py 150/155). -/
def projectedTotal (ms : Milestone) (today : ℤ) : ℚ :=
  if msStarted ms today then avgDaily ms today * (ms.deadline_days : ℚ)
  else ms.total_cost

/-- `urgency = 0.35 if remaining <= 7 else 0.15 if remaining <= 14 else 0.0`. -/
def urgency (ms : Milestone) (today : ℤ) : ℚ :=
  if days_remaining ms today ≤ 7 then 0.35
  else if days_remaining ms today ≤ 14 then 0.15
  else 0

/-- `budget_pressure = min(projected_total / max(total_budget, 1), 2.0)`. -/
def budgetPressure (ms : Milestone) (today : ℤ) : ℚ :=
  min (projectedTotal ms today / max ms.total_cost 1) 2

/-- `pct_time = min(elapsed / max(deadline_days, 1), 1.0)` when `elapsed > 0`, else `0.0`. -/
def pctTime (ms : Milestone) (today : ℤ) : ℚ :=
  if 0 < days_elapsed ms today then
    min ((days_elapsed ms today : ℚ) / (dlFloor ms : ℚ)) 1
  else 0

/-- Layer 1, `PoD` (app.py 160-168): capped combination when `elapsed > 0`,
bare urgency otherwise. -/
def PoD_val (ms : Milestone) (today : ℤ) : ℚ :=
  if 0 < days_elapsed ms today then
    min 0.95 (budgetPressure ms today * 0.35 + pctTime ms today * 0.20 + urgency ms today)
  else urgency ms today

/-- Layer 2, `CoD_norm` (app.py 172). -/
def CoD_norm_val (ms : Milestone) (today : ℤ) : ℚ :=
  if 0 < days_elapsed ms today then
    min (avgDaily ms today * (ms.deadline_days : ℚ) / max ms.total_cost 1) 1
  else 0

/-- Layer 3, `CFTS` step function of days remaining (app.py 175-179). -/
def CFTS_of (remaining : ℤ) : ℚ :=
  if remaining ≤ 3 then 1
  else if remaining ≤ 7 then 0.85
  else if remaining ≤ 14 then 0.65
  else if remaining ≤ 30 then 0.40
  else 0.20

/-- `raw_score = (PoD*0.40 + CoD_norm*0.35 + CFTS*0.25) * 100` (app.py 181). -/
def raw_score (ms : Milestone) (today : ℤ) : ℚ :=
  (PoD_val ms today * 0.40 + CoD_norm_val ms today * 0.35
    + CFTS_of (days_remaining ms today) * 0.25) * 100

/-- `pct_spent = total_spent / max(total_budget, 1)` (app.py 184). -/
def pctSpent (ms : Milestone) (today : ℤ) : ℚ :=
  totalSpent ms today / max ms.total_cost 1

/-- `burn_efficiency = pct_spent / pct_time if pct_time > 0.05 else 1.0`. -/
def burnEfficiency (ms : Milestone) (today : ℤ) : ℚ :=
  if pctTime ms today > 0.05 then pctSpent ms today / pctTime ms today else 1

/-- `remaining_budget = max(total_budget - total_spent, 0)` (app.py 186). -/
def remainingBudget (ms : Milestone) (today : ℤ) : ℚ :=
  max (ms.total_cost - totalSpent ms today) 0

/-- `days_of_cash_left = remaining_budget / avg_daily if avg_daily > 0 else remaining`. -/
def daysOfCashLeft (ms : Milestone) (today : ℤ) : ℚ :=
  if 0 < avgDaily ms today then remainingBudget ms today / avgDaily ms today
  else (days_remaining ms today : ℚ)

/-- The metrics bundle returned by `score_milestone` (app.py 189-201). -/
structure Metrics where
  score : ℤ
  PoD : ℚ
  CoD_per_day : ℚ
  CFTS : ℚ
  CoD_norm : ℚ
  avg_daily : ℚ
  total_spent : ℚ
  wages_spent : ℚ
  mat_spent : ℚ
  mach_spent : ℚ
  projected_total : ℚ
  pct_spent : ℚ
  pct_time : ℚ
  burn_efficiency : ℚ
  days_elapsed : ℤ
  days_remaining : ℤ
  days_of_cash_left : ℚ
  remaining_budget : ℚ
  not_started : Bool
deriving DecidableEq

/-- `score_milestone(ms)`: the scoring engine, with the per-field
presentation rounding applied exactly as in the returned dict. -/
def score_milestone (ms : Milestone) (today : ℤ) : Metrics :=
  { score := min 100 (rndHalfEven (raw_score ms today))
    PoD := roundTo 3 (PoD_val ms today)
    CoD_per_day := roundTo 2 (avgDaily ms today)
    CFTS := roundTo 2 (CFTS_of (days_remaining ms today))
    CoD_norm := roundTo 3 (CoD_norm_val ms today)
    avg_daily := roundTo 2 (avgDaily ms today)
    total_spent := roundTo 2 (totalSpent ms today)
    wages_spent := roundTo 2 (wagesSpent ms today)
    mat_spent := roundTo 2 (matSpent ms today)
    mach_spent := roundTo 2 (machSpent ms today)
    projected_total := roundTo 2 (projectedTotal ms today)
    pct_spent := roundTo 4 (pctSpent ms today)
    pct_time := roundTo 4 (pctTime ms today)
    burn_efficiency := roundTo 3 (burnEfficiency ms today)
    days_elapsed := days_elapsed ms today
    days_remaining := days_remaining ms today
    days_of_cash_left := roundTo 1 (daysOfCashLeft ms today)
    remaining_budget := roundTo 2 (remainingBudget ms today)
    not_started := decide (days_elapsed ms today = 0) }

/-- Advisory severity levels. -/
inductive Severity where
  | error
  | warning
  | info
  | success
deriving DecidableEq

/-- Advisory rule identifiers, in the source's evaluation order. -/
inductive Tag where
  | overspend
  | paceRisk
  | slowBurn
  | deadlineCritical
  | labourOptimise
  | machinerySavings
  | cashAlert
  | budgetOverrun
  | onTrack
deriving DecidableEq

/-- `generate_suggestions(ms, metrics)` (app.py 216-261), modelling each
advisory by its rule tag and severity (the message text is presentation). -/
def generate_suggestions (ms : Milestone) (metrics : Metrics) : List (Tag × Severity) :=
  let be := metrics.burn_efficiency
  let pod := metrics.PoD
  let remaining := metrics.days_remaining
  let pct_time := metrics.pct_time
  let s1 : List (Tag × Severity) :=
    if be > 1.40 then [(Tag.overspend, Severity.error)]
    else if be > 1.20 then [(Tag.paceRisk, Severity.warning)]
    else []
  let s2 : List (Tag × Severity) :=
    if be < 0.55 ∧ pct_time > 0.25 then [(Tag.slowBurn, Severity.info)] else []
  let s3 : List (Tag × Severity) :=
    if remaining ≤ 7 ∧ pod > 0.35 then [(Tag.deadlineCritical, Severity.error)] else []
  let s4 : List (Tag × Severity) :=
    if ms.labourers ≠ [] ∧ labour_cost ms.labourers > ms.total_cost * 0.60 then
      [(Tag.labourOptimise, Severity.warning)]
    else []
  let s5 : List (Tag × Severity) :=
    if ms.machines ≠ [] ∧ be > 1.05 then [(Tag.machinerySavings, Severity.info)] else []
  let s6 : List (Tag × Severity) :=
    if metrics.days_of_cash_left < 10 then [(Tag.cashAlert, Severity.error)] else []
  let s7 : List (Tag × Severity) :=
    if metrics.projected_total > ms.total_cost * 1.10 then
      [(Tag.budgetOverrun, Severity.error)]
    else []
  let all := s1 ++ s2 ++ s3 ++ s4 ++ s5 ++ s6 ++ s7
  if all = [] then [(Tag.onTrack, Severity.success)] else all

/-- `risk_label(score)` thresholds (app.py 204-208), label text elided. -/
def risk_label (score : ℤ) : String :=
  if score ≥ 70 then "CRITICAL"
  else if score ≥ 45 then "HIGH"
  else if score ≥ 25 then "MEDIUM"
  else "LOW"

/-- Milestone used to refute C1: starts 5 days after the scoring day. -/
def msC1 : Milestone :=
  ⟨"C1", "pre-start", 5, 5, 1000, [], [], []⟩

/-- Milestone used in the C1 witness: already started on the scoring day. -/
def msC1w : Milestone :=
  ⟨"C1w", "in-progress", 0, 5, 1000, [], [], []⟩

/-- Scenario 1 milestone of the spec (C2): 50000 budget, 30 days,
starting on the scoring day, no resources. -/
def msC2 : Milestone :=
  ⟨"C2", "scenario1", 0, 30, 50000, [], [], []⟩

/-- Milestone for C3: planned spend 57/day against a 400 budget gives
burn efficiency 0.57 at 50% elapsed time. -/
def msC3 : Milestone :=
  ⟨"C3", "slow-burn-gap", 0, 4, 400, [], [⟨"Cement", 1, 228⟩], []⟩

/-- Milestone for C4: per-field rounding of 10.004 loses what the
rounding of the summed 20.008 keeps. -/
def msC4 : Milestone :=
  ⟨"C4", "rounding", 0, 1, 100, [⟨"Mason", 1, 10.004, 1⟩], [⟨"Cement", 1, 10.004⟩], []⟩

/-- A schema-valid milestone with all three resource kinds (C5 witness). -/
def msC5 : Milestone :=
  ⟨"C5", "valid", 0, 3, 1000, [⟨"L", 2, 100, 3⟩], [⟨"M", 10, 5⟩], [⟨"X", 1, 50, 2⟩]⟩

/-- Milestone with 5 days remaining on day 0 (C6 witness). -/
def msC6a : Milestone :=
  ⟨"C6a", "shorter", 0, 5, 100, [], [], []⟩

/-- Milestone with 10 days remaining on day 0 (C6 witness). -/
def msC6b : Milestone :=
  ⟨"C6b", "longer", 0, 10, 100, [], [], []⟩

/-- Milestone with a 100-cost material over 3 days (C7 witness). -/
def msC7 : Milestone :=
  ⟨"C7", "materials", 0, 3, 500, [], [⟨"Steel", 1, 100⟩], []⟩

/-- Milestone that has not started on day 0 (C8 witness). -/
def msC8 : Milestone :=
  ⟨"C8", "future", 5, 5, 1000, [], [], []⟩

/-- Milestone in progress on day 0 (C9 witness). -/
def msC9 : Milestone :=
  ⟨"C9", "started", 0, 2, 100, [], [], []⟩

/-- The half-even rounding is always the floor or the floor plus one. -/
theorem rndHalfEven_eq_floor_or_succ (q : ℚ) :
    rndHalfEven q = ⌊q⌋ ∨ rndHalfEven q = ⌊q⌋ + 1 := by
  unfold rndHalfEven
  split_ifs <;> simp

/-- Rounding a non-negative rational gives a non-negative integer. -/
theorem rndHalfEven_nonneg {q : ℚ} (h : 0 ≤ q) : 0 ≤ rndHalfEven q := by
  have hf : (0 : ℤ) ≤ ⌊q⌋ := Int.floor_nonneg.mpr h
  rcases rndHalfEven_eq_floor_or_succ q with h1 | h1 <;> omega

/-- Rounding never pushes past an integer bound. -/
theorem rndHalfEven_le {q : ℚ} {n : ℤ} (h : q ≤ (n : ℚ)) : rndHalfEven q ≤ n := by
  have hfl : ⌊q⌋ ≤ n := by
    have := Int.floor_le_floor h
    simpa using this
  have hl := Int.floor_le q
  unfold rndHalfEven
  split_ifs with h1 h2 h3
  · exact hfl
  · have hlt : ((⌊q⌋ : ℚ)) + 1/2 < (n : ℚ) := by linarith
    have : (⌊q⌋ : ℚ) < (n : ℚ) := by linarith
    have : ⌊q⌋ < n := by exact_mod_cast this
    omega
  · exact hfl
  · have heq : q - ⌊q⌋ = 1/2 := le_antisymm (not_lt.mp h2) (not_lt.mp h1)
    have : (⌊q⌋ : ℚ) < (n : ℚ) := by linarith
    have : ⌊q⌋ < n := by exact_mod_cast this
    omega

/-- Half-even rounding moves a rational by at most one half. -/
theorem abs_rndHalfEven_sub (q : ℚ) : |(rndHalfEven q : ℚ) - q| ≤ 1/2 := by
  have hl := Int.floor_le q
  have hu := Int.lt_floor_add_one q
  unfold rndHalfEven
  split_ifs with h1 h2 h3 <;> rw [abs_le] <;> constructor <;> push_cast <;> linarith

/-- Rounding to two decimals moves a rational by at most 1/200. -/
theorem abs_roundTo_two_sub (q : ℚ) : |roundTo 2 q - q| ≤ 1/200 := by
  have h := abs_rndHalfEven_sub (q * 10 ^ 2)
  have hrw : roundTo 2 q - q = ((rndHalfEven (q * 10 ^ 2) : ℚ) - q * 10 ^ 2) / 100 := by
    unfold roundTo
    norm_num
    ring
  rw [hrw, abs_div]
  rw [show |(100 : ℚ)| = 100 by norm_num]
  rw [div_le_div_iff₀ (by norm_num) (by norm_num)]
  norm_num at h ⊢
  linarith

/-- Rounding to decimals preserves non-negativity. -/
theorem roundTo_nonneg {n : ℕ} {q : ℚ} (h : 0 ≤ q) : 0 ≤ roundTo n q := by
  unfold roundTo
  apply div_nonneg _ (by positivity)
  have : (0 : ℤ) ≤ rndHalfEven (q * 10 ^ n) := rndHalfEven_nonneg (by positivity)
  exact_mod_cast this

/-- Day-wage sums are non-negative when all daily rates are. -/
theorem wagesOn_nonneg {ls : List Labourer} (h : ∀ l ∈ ls, 0 ≤ l.daily_rate) (i : ℕ) :
    0 ≤ wagesOn ls i := by
  unfold wagesOn
  apply List.sum_nonneg
  intro x hx
  simp only [List.mem_map] at hx
  obtain ⟨l, hl, rfl⟩ := hx
  have := h l (List.mem_of_mem_filter hl)
  positivity

/-- Day-machinery sums are non-negative when all daily rates are. -/
theorem machineryOn_nonneg {xs : List Machine} (h : ∀ m ∈ xs, 0 ≤ m.daily_rate) (i : ℕ) :
    0 ≤ machineryOn xs i := by
  unfold machineryOn
  apply List.sum_nonneg
  intro x hx
  simp only [List.mem_map] at hx
  obtain ⟨m, hm, rfl⟩ := hx
  have := h m (List.mem_of_mem_filter hm)
  positivity

/-- Total material cost is non-negative for valid material lists. -/
theorem material_cost_nonneg {mats : List Material}
    (h : ∀ m ∈ mats, 0 ≤ m.quantity ∧ 0 ≤ m.unit_cost) : 0 ≤ material_cost mats := by
  unfold material_cost
  apply List.sum_nonneg
  intro x hx
  simp only [List.mem_map] at hx
  obtain ⟨m, hm, rfl⟩ := hx
  exact mul_nonneg (h m hm).1 (h m hm).2

/-- The even daily material split is non-negative for valid milestones. -/
theorem dailyMaterial_nonneg {ms : Milestone} (h : ms.Valid) : 0 ≤ dailyMaterial ms := by
  unfold dailyMaterial
  exact div_nonneg (material_cost_nonneg h.2.2.2.1) (by positivity)

/-- Every field of a planned schedule row is non-negative for valid milestones. -/
theorem scheduleRow_nonneg {ms : Milestone} (h : ms.Valid) (i : ℕ) :
    0 ≤ (scheduleRow ms i).wages ∧ 0 ≤ (scheduleRow ms i).materials ∧
    0 ≤ (scheduleRow ms i).machinery ∧ 0 ≤ (scheduleRow ms i).total := by
  have hw := wagesOn_nonneg h.2.2.1 i
  have hm := dailyMaterial_nonneg h
  have hx := machineryOn_nonneg h.2.2.2.2 i
  exact ⟨roundTo_nonneg hw, roundTo_nonneg hm, roundTo_nonneg hx,
    roundTo_nonneg (by linarith)⟩

/-- The sum of actuals totals is non-negative for valid milestones. -/
theorem actualsTotalSum_nonneg (ms : Milestone) (today : ℤ) (h : ms.Valid) :
    0 ≤ ((get_actuals_up_to_today ms today).map fun r => r.total).sum := by
  apply List.sum_nonneg
  intro x hx
  simp only [List.mem_map] at hx
  obtain ⟨r, hr, rfl⟩ := hx
  have hr2 : r ∈ compute_planned_schedule ms := by
    unfold get_actuals_up_to_today at hr
    exact List.mem_of_mem_filter hr
  simp only [compute_planned_schedule, List.mem_map, List.mem_range] at hr2
  obtain ⟨i, -, rfl⟩ := hr2
  exact (scheduleRow_nonneg h i).2.2.2

/-- The average daily spend is non-negative for valid milestones. -/
theorem avgDaily_nonneg (ms : Milestone) (today : ℤ) (h : ms.Valid) :
    0 ≤ avgDaily ms today := by
  unfold avgDaily
  split
  · exact div_nonneg (actualsTotalSum_nonneg ms today h) (Nat.cast_nonneg _)
  · exact div_nonneg h.1 (by positivity)

/-- The projected total spend is non-negative for valid milestones. -/
theorem projectedTotal_nonneg (ms : Milestone) (today : ℤ) (h : ms.Valid) :
    0 ≤ projectedTotal ms today := by
  unfold projectedTotal
  split
  · exact mul_nonneg (avgDaily_nonneg ms today h) (Nat.cast_nonneg _)
  · exact h.1

/-- The budget-pressure term is non-negative for valid milestones. -/
theorem budgetPressure_nonneg (ms : Milestone) (today : ℤ) (h : ms.Valid) :
    0 ≤ budgetPressure ms today := by
  unfold budgetPressure
  apply le_min _ (by norm_num)
  apply div_nonneg (projectedTotal_nonneg ms today h)
  exact le_trans zero_le_one (le_max_right _ _)

/-- The time-fraction term lies in `[0, 1]`. -/
theorem pctTime_bounds (ms : Milestone) (today : ℤ) :
    0 ≤ pctTime ms today ∧ pctTime ms today ≤ 1 := by
  unfold pctTime
  split
  · constructor
    · apply le_min _ zero_le_one
      apply div_nonneg _ (by positivity)
      have : (0 : ℤ) ≤ days_elapsed ms today := le_max_left _ _
      exact_mod_cast this
    · exact min_le_right _ _
  · exact ⟨le_refl 0, zero_le_one⟩

/-- The urgency term lies in `[0, 0.35]`. -/
theorem urgency_bounds (ms : Milestone) (today : ℤ) :
    0 ≤ urgency ms today ∧ urgency ms today ≤ 0.35 := by
  unfold urgency
  split_ifs <;> norm_num

/-- `PoD` is non-negative for valid milestones. -/
theorem PoD_val_nonneg (ms : Milestone) (today : ℤ) (h : ms.Valid) :
    0 ≤ PoD_val ms today := by
  unfold PoD_val
  split
  · apply le_min (by norm_num)
    have h1 := budgetPressure_nonneg ms today h
    have h2 := (pctTime_bounds ms today).1
    have h3 := (urgency_bounds ms today).1
    linarith
  · exact (urgency_bounds ms today).1

/-- `PoD` never exceeds its 0.95 ceiling (in either branch). -/
theorem PoD_val_le (ms : Milestone) (today : ℤ) : PoD_val ms today ≤ 0.95 := by
  unfold PoD_val
  split
  · exact min_le_left _ _
  · have := (urgency_bounds ms today).2
    linarith

/-- `CoD_norm` lies in `[0, 1]` (non-negativity needs validity). -/
theorem CoD_norm_val_nonneg (ms : Milestone) (today : ℤ) (h : ms.Valid) :
    0 ≤ CoD_norm_val ms today := by
  unfold CoD_norm_val
  split
  · apply le_min _ zero_le_one
    apply div_nonneg (mul_nonneg (avgDaily_nonneg ms today h) (Nat.cast_nonneg _))
    exact le_trans zero_le_one (le_max_right _ _)
  · exact le_refl 0

/-- `CoD_norm` is capped at 1 unconditionally. -/
theorem CoD_norm_val_le (ms : Milestone) (today : ℤ) : CoD_norm_val ms today ≤ 1 := by
  unfold CoD_norm_val
  split
  · exact min_le_right _ _
  · exact zero_le_one

/-- `CFTS` lies in `[0.20, 1]` for every remaining-day count. -/
theorem CFTS_of_bounds (r : ℤ) : 0.20 ≤ CFTS_of r ∧ CFTS_of r ≤ 1 := by
  unfold CFTS_of
  split_ifs <;> norm_num

/-- The raw composite is non-negative for valid milestones. -/
theorem raw_score_nonneg (ms : Milestone) (today : ℤ) (h : ms.Valid) :
    0 ≤ raw_score ms today := by
  unfold raw_score
  have h1 := PoD_val_nonneg ms today h
  have h2 := CoD_norm_val_nonneg ms today h
  have h3 := (CFTS_of_bounds (days_remaining ms today)).1
  nlinarith

/-- The raw composite never exceeds 98 (0.95·0.40 + 1·0.35 + 1·0.25 = 0.98). -/
theorem raw_score_le (ms : Milestone) (today : ℤ) : raw_score ms today ≤ 98 := by
  unfold raw_score
  have h1 := PoD_val_le ms today
  have h2 := CoD_norm_val_le ms today
  have h3 := (CFTS_of_bounds (days_remaining ms today)).2
  nlinarith

/-- C1 counterexample: for a milestone starting 5 days in the future with a
5-day duration, the engine reports `days_remaining = 10`, which exceeds
`deadline_days = 5` — the claimed upper clamp does not exist in the code. -/
theorem c1_days_remaining_unclamped :
    (score_milestone msC1 0).days_remaining = 10 ∧
    ¬((score_milestone msC1 0).days_remaining ≤ (msC1.deadline_days : ℤ)) := by
  decide

/-- C1 (amended): whenever scoring happens on or after `start_date`, the
reported `days_remaining` does equal `(start_date + deadline_days) - today`
clamped to `[0, deadline_days]`; before `start_date` the code applies only
the lower clamp, so the value exceeds `deadline_days`. -/
theorem c1_days_remaining_clamped_after_start (ms : Milestone) (today : ℤ)
    (h : ms.start_date ≤ today) :
    (score_milestone ms today).days_remaining
      = max 0 (min (ms.start_date + (ms.deadline_days : ℤ) - today) (ms.deadline_days : ℤ)) := by
  simp only [score_milestone, days_remaining]
  omega

/-- C1 witness: the amended clamp identity at a started milestone. -/
theorem c1_witness :
    msC1w.start_date ≤ 2 ∧
    (score_milestone msC1w 2).days_remaining
      = max 0 (min (msC1w.start_date + (msC1w.deadline_days : ℤ) - 2) (msC1w.deadline_days : ℤ)) :=
  ⟨by decide, c1_days_remaining_clamped_after_start msC1w 2 (by decide)⟩

/-- C2 counterexample: for Scenario 1 (budget 50000, 30 days, starting on the
scoring day, no resources) the engine yields `days_elapsed = 1` (the start day
counts as elapsed), `PoD = 0.007` and `score = 10`, not the claimed
`elapsed = 0`, `PoD = 0` and `score = 5`. -/
theorem c2_scenario1_claim_false :
    ¬((score_milestone msC2 0).days_elapsed = 0 ∧
      (score_milestone msC2 0).PoD = 0 ∧
      (score_milestone msC2 0).score = 5) := by
  decide

/-- C2 (amended): for Scenario 1 the engine returns `days_elapsed = 1`,
`PoD = 0.007` (the time term `(1/30)*0.20` rounded to 3 places), `CFTS = 0.40`
(since `remaining = 30 ≤ 30`), and `score = 10` — the CFTS layer contributes
`0.40*0.25*100 = 10` and the PoD term vanishes in the final rounding. -/
theorem c2_scenario1_actual :
    (score_milestone msC2 0).days_elapsed = 1 ∧
    (score_milestone msC2 0).PoD = 7/1000 ∧
    (score_milestone msC2 0).CFTS = 0.40 ∧
    (score_milestone msC2 0).score = 10 := by
  decide

/-- C5: for every schema-valid milestone (non-negative budget, duration ≥ 1,
non-negative rates/quantities) and every scoring day, the returned score is an
integer (by type) in the range `[0, 100]`. -/
theorem c5_score_bounded (ms : Milestone) (today : ℤ) (h : ms.Valid) :
    0 ≤ (score_milestone ms today).score ∧ (score_milestone ms today).score ≤ 100 := by
  have hraw := raw_score_nonneg ms today h
  have hrnd : 0 ≤ rndHalfEven (raw_score ms today) := rndHalfEven_nonneg hraw
  simp only [score_milestone]
  omega

/-- C5 witness: the bounds at a concrete valid milestone with all three
resource kinds. -/
theorem c5_witness :
    msC5.Valid ∧
    (0 ≤ (score_milestone msC5 1).score ∧ (score_milestone msC5 1).score ≤ 100) :=
  ⟨by decide, c5_score_bounded msC5 1 (by decide)⟩

/-- The presentation rounding to two decimals fixes every CFTS step value. -/
theorem roundTo_two_CFTS_of (r : ℤ) : roundTo 2 (CFTS_of r) = CFTS_of r := by
  unfold CFTS_of
  split_ifs <;> decide

/-- The CFTS step function is antitone in the remaining-day count. -/
theorem CFTS_of_antitone {x y : ℤ} (h : x ≤ y) : CFTS_of y ≤ CFTS_of x := by
  unfold CFTS_of
  split_ifs <;> (try norm_num) <;> omega

/-- C6: scoring two milestones on the same day, the one with strictly fewer
days remaining gets a CFTS at least as large — CFTS is a non-increasing step
function of `days_remaining`. -/
theorem c6_CFTS_antitone (msa msb : Milestone) (today : ℤ)
    (h : days_remaining msa today < days_remaining msb today) :
    (score_milestone msb today).CFTS ≤ (score_milestone msa today).CFTS := by
  simp only [score_milestone]
  rw [roundTo_two_CFTS_of, roundTo_two_CFTS_of]
  exact CFTS_of_antitone h.le

/-- C6 witness: a 5-day milestone versus a 10-day milestone on day 0. -/
theorem c6_witness :
    days_remaining msC6a 0 < days_remaining msC6b 0 ∧
    (score_milestone msC6b 0).CFTS ≤ (score_milestone msC6a 0).CFTS :=
  ⟨by decide, c6_CFTS_antitone msC6a msC6b 0 (by decide)⟩

/-- C10: the cap at 100 is never active: the raw composite is at most 98
(since `PoD ≤ 0.95`, `CoD_norm ≤ 1`, `CFTS ≤ 1`), the returned score equals
the plain rounding of the raw composite, and it never exceeds 98. -/
theorem c10_cap_inactive (ms : Milestone) (today : ℤ) :
    raw_score ms today ≤ 98 ∧
    (score_milestone ms today).score = rndHalfEven (raw_score ms today) ∧
    (score_milestone ms today).score ≤ 98 := by
  have hraw := raw_score_le ms today
  have hrnd : rndHalfEven (raw_score ms today) ≤ 98 :=
    rndHalfEven_le (by exact_mod_cast hraw)
  refine ⟨hraw, ?_, ?_⟩ <;> simp only [score_milestone] <;> omega

/-- C3 counterexample: a milestone whose bundle has burn efficiency 0.57 at
50% elapsed time satisfies the claimed trigger (`< 0.60` and `> 0.20`) yet
the engine emits no Slow-burn advisory, because the code tests `< 0.55` and
`> 0.25`. -/
theorem c3_slow_burn_claim_false :
    (score_milestone msC3 1).burn_efficiency < 0.60 ∧
    (score_milestone msC3 1).pct_time > 0.20 ∧
    Tag.slowBurn ∉ (generate_suggestions msC3 (score_milestone msC3 1)).map Prod.fst := by
  decide

/-- C3 (amended): `generate_suggestions` emits the Slow-burn info advisory
exactly when `burn_efficiency < 0.55` and `pct_time > 0.25` (the thresholds
in this variant of the code are 0.55 and 0.25, not 0.60 and 0.20). -/
theorem c3_slow_burn_iff (ms : Milestone) (m : Metrics) :
    Tag.slowBurn ∈ (generate_suggestions ms m).map Prod.fst ↔
      (m.burn_efficiency < 0.55 ∧ m.pct_time > 0.25) := by
  simp only [generate_suggestions]
  split_ifs <;> simp_all

/-- C4 counterexample: with a 10.004 daily wage and a 10.004 daily material
cost over one day, the row stores wages 10.00, materials 10.00 but total
20.01 — the `total` field is the rounding of the unrounded sum, not the sum
of the rounded fields. -/
theorem c4_total_ne_sum_of_fields :
    ((compute_planned_schedule msC4).all fun r =>
      decide (r.total = r.wages + r.materials + r.machinery)) = false := by
  decide

/-- C4 (amended): every schedule row's `total` is within 0.02 of the sum of
its `wages`, `materials` and `machinery` fields (all four values are rounded
to 2 decimals separately, so they can disagree by up to four half-cent
rounding errors), rather than exactly equal to it. -/
theorem c4_row_total_near (ms : Milestone) (r : ScheduleRow)
    (hr : r ∈ compute_planned_schedule ms) :
    |r.total - (r.wages + r.materials + r.machinery)| ≤ 1/50 := by
  simp only [compute_planned_schedule, List.mem_map, List.mem_range] at hr
  obtain ⟨i, -, rfl⟩ := hr
  simp only [scheduleRow]
  have h1 := abs_roundTo_two_sub (wagesOn ms.labourers i + dailyMaterial ms
    + machineryOn ms.machines i)
  have h2 := abs_roundTo_two_sub (wagesOn ms.labourers i)
  have h3 := abs_roundTo_two_sub (dailyMaterial ms)
  have h4 := abs_roundTo_two_sub (machineryOn ms.machines i)
  rw [abs_le] at h1 h2 h3 h4 ⊢
  constructor <;> [linarith; linarith]

/-- C4 witness: the bound at the concrete counterexample row. -/
theorem c4_witness :
    |(scheduleRow msC4 0).total - ((scheduleRow msC4 0).wages
      + (scheduleRow msC4 0).materials + (scheduleRow msC4 0).machinery)| ≤ 1/50 :=
  c4_row_total_near msC4 (scheduleRow msC4 0) (by decide)

/-- Summing a constant function over `range n` multiplies it by `n`. -/
theorem sum_map_constant (n : ℕ) (c : ℚ) : ((List.range n).map fun _ => c).sum = n * c := by
  induction n with
  | zero => simp
  | succ n ih =>
    rw [List.range_succ, List.map_append, List.sum_append, ih]
    push_cast
    simp
    ring

/-- C7: for every milestone with `deadline_days ≥ 1`, the sum of the
`materials` column of the planned schedule equals the milestone's total
material cost `Σ quantity·unit_cost` up to the accumulated per-row rounding,
which is at most half a cent per day. -/
theorem c7_materials_roundtrip (ms : Milestone) (h : 1 ≤ ms.deadline_days) :
    |((compute_planned_schedule ms).map fun r => r.materials).sum
      - material_cost ms.materials| ≤ (ms.deadline_days : ℚ) / 200 := by
  have hdl : (0 : ℚ) < (ms.deadline_days : ℚ) := by exact_mod_cast h
  have hmap : ((compute_planned_schedule ms).map fun r => r.materials)
      = (List.range ms.deadline_days).map fun _ => roundTo 2 (dailyMaterial ms) := by
    unfold compute_planned_schedule
    rw [List.map_map]
    rfl
  have hcost : material_cost ms.materials
      = (ms.deadline_days : ℚ) * dailyMaterial ms := by
    unfold dailyMaterial dlFloor
    rw [Nat.max_eq_left h]
    field_simp
  have key := abs_roundTo_two_sub (dailyMaterial ms)
  rw [hmap, sum_map_constant, hcost, ← mul_sub, abs_mul, abs_of_nonneg hdl.le]
  have hb := mul_le_mul_of_nonneg_left key hdl.le
  linarith

/-- C7 witness: a 100-cost material spread over 3 days sums to 99.99,
within the 3/200 bound. -/
theorem c7_witness :
    1 ≤ msC7.deadline_days ∧
    |((compute_planned_schedule msC7).map fun r => r.materials).sum
      - material_cost msC7.materials| ≤ (msC7.deadline_days : ℚ) / 200 :=
  ⟨by decide, c7_materials_roundtrip msC7 (by decide)⟩

/-- C8: whenever `days_elapsed = 0` (milestone not yet started), the bundle's
`PoD` equals the urgency term exactly (0.35 if at most 7 days remain, 0.15 if
at most 14, else 0), `total_spent` is 0, and the `not_started` flag is set. -/
theorem c8_not_started_bundle (ms : Milestone) (today : ℤ)
    (h : days_elapsed ms today = 0) :
    (score_milestone ms today).PoD =
      (if days_remaining ms today ≤ 7 then (0.35 : ℚ)
       else if days_remaining ms today ≤ 14 then 0.15 else 0) ∧
    (score_milestone ms today).total_spent = 0 ∧
    (score_milestone ms today).not_started = true := by
  have hlt : ¬(0 < days_elapsed ms today) := by omega
  have hst : msStarted ms today = false := by
    unfold msStarted
    simp [hlt]
  refine ⟨?_, ?_, ?_⟩
  · have hpod : PoD_val ms today = urgency ms today := by
      unfold PoD_val
      rw [if_neg hlt]
    simp only [score_milestone, hpod, urgency]
    split_ifs <;> decide
  · simp only [score_milestone, totalSpent, hst, Bool.false_eq_true, if_false]
    decide
  · simp [score_milestone, h]

/-- C8 witness: the not-started bundle facts for a milestone starting 5 days
after the scoring day. -/
theorem c8_witness :
    days_elapsed msC8 0 = 0 ∧
    ((score_milestone msC8 0).PoD =
      (if days_remaining msC8 0 ≤ 7 then (0.35 : ℚ)
       else if days_remaining msC8 0 ≤ 14 then 0.15 else 0) ∧
    (score_milestone msC8 0).total_spent = 0 ∧
    (score_milestone msC8 0).not_started = true) :=
  ⟨by decide, c8_not_started_bundle msC8 0 (by decide)⟩

/-- Counting the indices of `range n` that lie below an integer bound. -/
theorem countP_range_le (s t : ℤ) (n : ℕ) :
    (((List.range n).countP fun i : ℕ => decide (s + (i : ℤ) ≤ t)) : ℤ)
      = min (n : ℤ) (max (t - s + 1) 0) := by
  induction n with
  | zero => simp
  | succ n ih =>
    rw [List.range_succ, List.countP_append]
    by_cases hc : s + (n : ℤ) ≤ t
    · simp only [List.countP_cons, List.countP_nil, decide_eq_true_eq]
      rw [if_pos hc]
      push_cast
      push_cast at ih
      rw [ih]
      omega
    · simp only [List.countP_cons, List.countP_nil, decide_eq_true_eq]
      rw [if_neg hc]
      push_cast
      push_cast at ih
      rw [ih]
      omega

/-- C9: for every milestone with `deadline_days ≥ 1`, the number of rows
returned by `get_actuals_up_to_today` equals `days_elapsed`: zero rows before
`start_date`, `(today - start_date) + 1` rows while in progress, and exactly
`deadline_days` rows once the deadline has passed — all three cases being the
clamp `max 0 (min (today - start_date + 1) deadline_days)`. -/
theorem c9_actuals_length (ms : Milestone) (today : ℤ) (h : 1 ≤ ms.deadline_days) :
    ((get_actuals_up_to_today ms today).length : ℤ) = days_elapsed ms today := by
  unfold get_actuals_up_to_today compute_planned_schedule days_elapsed
  rw [← List.countP_eq_length_filter, List.countP_map]
  have hfun : ((fun r : ScheduleRow => decide (r.date ≤ today)) ∘ scheduleRow ms)
      = fun i : ℕ => decide (ms.start_date + (i : ℤ) ≤ today) := rfl
  rw [hfun, countP_range_le]
  omega

/-- C9 witness: one actuals row on the first day of a 2-day milestone. -/
theorem c9_witness :
    1 ≤ msC9.deadline_days ∧
    ((get_actuals_up_to_today msC9 0).length : ℤ) = days_elapsed msC9 0 :=
  ⟨by decide, c9_actuals_length msC9 0 (by decide)⟩
